import Mathlib

/-!
Verification of the two-route Flask HTTP server in `src/server.py`.

The application code registers two view functions on a `Flask` app:

  @app.route("/api")
  def api():
      return jsonify({"message": "Hello from Chinecherem Udegbunam"})

  @app.route("/")
  def root():
      return "<h1>Index served from container</h1><p>Try GET /api</p>"

  if __name__ == "__main__":
      app.run(host="0.0.0.0", port=5000)

The application-level data (route paths, handler return values, the bind
host and port, the `__main__` guard) is embedded directly from the source.
The HTTP dispatch layer is the Flask framework, which is not part of this
repository; its default behaviour (exact path matching, 404 for unknown
paths, 405 for unsupported methods, automatic HEAD/OPTIONS on GET routes,
`jsonify` serialization) is modelled from the spec.
-/

namespace ServerPy

/-- HTTP request methods relevant to the routes of this server. -/
inductive Method where
  | GET
  | HEAD
  | OPTIONS
  | POST
  | PUT
  | DELETE
  | PATCH
deriving DecidableEq, Repr

/-- An HTTP request: method, exact path, and the parts of the request the
handlers never look at (query parameters, headers, body). -/
structure Request where
  method : Method
  path : String
  query : List (String × String)
  headers : List (String × String)
  body : String
deriving DecidableEq, Repr

/-- An HTTP response as observed by a client: status code, Content-Type,
and body text. -/
structure Response where
  status : Nat
  contentType : String
  body : String
deriving DecidableEq, Repr

/-- Serialization of a flat JSON object (string keys to string values),
in Python dict insertion order, with the `": "` and `", "` separators. -/
def jsonObjectText (kvs : List (String × String)) : String :=
  "\x7b" ++
    String.intercalate ", "
      (kvs.map fun kv => "\"" ++ kv.1 ++ "\": \"" ++ kv.2 ++ "\"") ++
  "\x7d"

/-- Modelled from the spec: Flask's `jsonify` (not part of this repository)
builds an HTTP 200 response with `Content-Type: application/json` whose body
is the JSON serialization of its dict argument. -/
def jsonify (kvs : List (String × String)) : Response :=
  { status := 200
    contentType := "application/json"
    body := jsonObjectText kvs }

/-- Modelled from the spec: returning a plain string from a Flask view
(framework behaviour, not part of this repository) produces an HTTP 200
response with `Content-Type: text/html` and that string as the body. -/
def htmlResponse (s : String) : Response :=
  { status := 200
    contentType := "text/html"
    body := s }

/-- The `api` view function from `src/server.py`:
`return jsonify({"message": "Hello from Chinecherem Udegbunam"})`. -/
def api : Response :=
  jsonify [("message", "Hello from Chinecherem Udegbunam")]

/-- The `root` view function from `src/server.py`:
`return "<h1>Index served from container</h1><p>Try GET /api</p>"`. -/
def root : Response :=
  htmlResponse "<h1>Index served from container</h1><p>Try GET /api</p>"

/-- The route table registered by the two `@app.route` decorators in
`src/server.py`, in source order: exact path, handler response. -/
def routes : List (String × Response) :=
  [("/api", api), ("/", root)]

/-- Modelled from the spec: the methods Flask (not part of this repository)
accepts on a route declared with no `methods` argument: GET, plus the
automatically added HEAD and OPTIONS. -/
def allowedMethods : List Method :=
  [Method.GET, Method.HEAD, Method.OPTIONS]

/-- Modelled from the spec: Flask's default not-found response (HTTP 404),
produced by the framework, not by application code. -/
def notFound : Response :=
  { status := 404
    contentType := "text/html"
    body := "404 Not Found" }

/-- Modelled from the spec: Flask's default method-not-allowed response
(HTTP 405), produced by the framework, not by application code. -/
def methodNotAllowed : Response :=
  { status := 405
    contentType := "text/html"
    body := "405 Method Not Allowed" }

/-- Modelled from the spec: Flask's automatic response to a HEAD request on
a GET route: the GET response's status and headers with an empty body. -/
def headOf (r : Response) : Response :=
  { r with body := "" }

/-- Modelled from the spec: Flask's automatic response to an OPTIONS
request on a registered route: HTTP 200 with an empty body. -/
def optionsResponse : Response :=
  { status := 200
    contentType := "text/html"
    body := "" }

/-- Modelled from the spec: the framework's request dispatch. The path is
matched exactly against the registered route table (strict about trailing
slashes); an unmatched path yields the default 404, a matched path with a
method outside the allowed set yields the default 405, and otherwise the
route's handler (or its automatic HEAD/OPTIONS variant) answers. Only the
method and path of the request are ever consulted. -/
def dispatch (req : Request) : Response :=
  match routes.find? (fun r => r.1 == req.path) with
  | none => notFound
  | some r =>
    if req.method ∈ allowedMethods then
      match req.method with
      | Method.HEAD => headOf r.2
      | Method.OPTIONS => optionsResponse
      | _ => r.2
    else
      methodNotAllowed

/-- Serving a sequence of requests: the server keeps no state between
requests, so each is answered independently by `dispatch`. -/
def serve (reqs : List Request) : List Response :=
  reqs.map dispatch

/-- The bind configuration passed to `app.run` in `src/server.py`. -/
structure RunConfig where
  host : String
  port : Nat
deriving DecidableEq, Repr

/-- The `app.run(host="0.0.0.0", port=5000)` call from `src/server.py`, as
a function of the process environment and command line: neither is read, so
the configuration is the constant `⟨"0.0.0.0", 5000⟩`. -/
def runConfigOf (_env : List (String × String)) (_argv : List String) :
    RunConfig :=
  { host := "0.0.0.0", port := 5000 }

/-- Observable top-level effects of executing the module `src/server.py`. -/
inductive Effect where
  | defineRoute (path : String)
  | runServer (cfg : RunConfig)
deriving DecidableEq, Repr

/-- Top-level execution of `src/server.py` as a function of whether the
file runs as the main program (`__name__ == "__main__"`): the two routes
are always defined, and `app.run(host="0.0.0.0", port=5000)` executes only
under the `__main__` guard. -/
def moduleEffects (isMain : Bool) : List Effect :=
  [Effect.defineRoute "/api", Effect.defineRoute "/"] ++
    (if isMain then [Effect.runServer { host := "0.0.0.0", port := 5000 }]
     else [])

end ServerPy

namespace ServerPy

/-! JSON parsing, used to check that the `/api` body is well-formed JSON.
The parser handles exactly the flat fragment of JSON the payload lives in:
an object whose keys and values are quoted strings without escapes. -/

/-- Scan a quoted string's content up to the closing quote; returns the
content and the rest of the input. The opening quote is already consumed. -/
def scanQuoted : List Char → Option (List Char × List Char)
  | [] => none
  | c :: rest =>
    if c = '"' then some ([], rest)
    else
      match scanQuoted rest with
      | some (s, r) => some (c :: s, r)
      | none => none

/-- Drop leading spaces. -/
def skipSpaces : List Char → List Char
  | ' ' :: rest => skipSpaces rest
  | cs => cs

/-- Parse one `"key": "value"` pair; returns the pair and the rest. -/
def parsePair (cs : List Char) : Option ((String × String) × List Char) :=
  match skipSpaces cs with
  | '"' :: r1 =>
    match scanQuoted r1 with
    | some (k, r2) =>
      match skipSpaces r2 with
      | ':' :: r3 =>
        match skipSpaces r3 with
        | '"' :: r4 =>
          match scanQuoted r4 with
          | some (v, r5) => some ((String.mk k, String.mk v), r5)
          | none => none
        | _ => none
      | _ => none
    | none => none
  | _ => none

/-- Parse a comma-separated list of pairs followed by the closing brace,
with fuel bounding the number of pairs. -/
def parsePairs : Nat → List Char → Option (List (String × String) × List Char)
  | 0, _ => none
  | fuel + 1, cs =>
    match parsePair cs with
    | none => none
    | some (kv, rest) =>
      match skipSpaces rest with
      | ',' :: r => (parsePairs fuel r).map fun p => (kv :: p.1, p.2)
      | c :: r => if c = '\x7d' then some ([kv], r) else none
      | [] => none

/-- Parse a complete flat JSON object (string keys and values, no escapes)
from a string; `some kvs` exactly when the whole input is such an object. -/
def parseFlatJsonObject (s : String) : Option (List (String × String)) :=
  match skipSpaces s.data with
  | c :: r =>
    if c = '\x7b' then
      match skipSpaces r with
      | c2 :: r2 =>
        if c2 = '\x7d' then
          match skipSpaces r2 with
          | [] => some []
          | _ => none
        else
          match parsePairs (s.data.length + 1) (c2 :: r2) with
          | some (kvs, rest) =>
            match skipSpaces rest with
            | [] => some kvs
            | _ => none
          | none => none
      | [] => none
    else none
  | [] => none

end ServerPy

namespace ServerPy

/-! Concrete requests used by the witnesses. -/

/-- A concrete GET request to /api. -/
def reqApi : Request :=
  { method := Method.GET, path := "/api", query := [], headers := [], body := "" }

/-- A concrete GET request to /. -/
def reqRoot : Request :=
  { method := Method.GET, path := "/", query := [], headers := [], body := "" }

/-- A concrete GET request to an unregistered path. -/
def reqUnknown : Request :=
  { method := Method.GET, path := "/unknown", query := [], headers := [], body := "" }

/-- A concrete POST request to /api. -/
def reqPostApi : Request :=
  { method := Method.POST, path := "/api", query := [], headers := [], body := "x=1" }

/-- A concrete GET request to /api with a query string, headers and a body. -/
def reqApiNoisy : Request :=
  { method := Method.GET, path := "/api"
    query := [("debug", "1")]
    headers := [("X-Test", "yes")]
    body := "ignored" }

/-- A concrete GET request to /api/ with a trailing slash. -/
def reqApiSlash : Request :=
  { method := Method.GET, path := "/api/", query := [], headers := [], body := "" }

/-- A concrete HEAD request to /. -/
def reqHeadRoot : Request :=
  { method := Method.HEAD, path := "/", query := [], headers := [], body := "" }

/-- C1: every GET request to the exact path /api is answered with HTTP 200,
Content-Type application/json, body exactly
`{"message": "Hello from Chinecherem Udegbunam"}`, and that body parses as
a JSON object with exactly one key, `message`. -/
theorem c1_get_api (req : Request) (hm : req.method = Method.GET)
    (hp : req.path = "/api") :
    (dispatch req).status = 200 ∧
    (dispatch req).contentType = "application/json" ∧
    (dispatch req).body =
      "\x7b\"message\": \"Hello from Chinecherem Udegbunam\"\x7d" ∧
    parseFlatJsonObject (dispatch req).body =
      some [("message", "Hello from Chinecherem Udegbunam")] := by
  have hd : dispatch req = api := by
    unfold dispatch
    rw [hp, hm]
    rfl
  rw [hd]
  refine ⟨rfl, rfl, rfl, by decide⟩

/-- C1 witness: the concrete GET /api request. -/
theorem c1_get_api_witness :
    (dispatch reqApi).status = 200 ∧
    (dispatch reqApi).contentType = "application/json" ∧
    (dispatch reqApi).body =
      "\x7b\"message\": \"Hello from Chinecherem Udegbunam\"\x7d" ∧
    parseFlatJsonObject (dispatch reqApi).body =
      some [("message", "Hello from Chinecherem Udegbunam")] :=
  c1_get_api reqApi rfl rfl

/-- C2: every GET request to the exact path / is answered with HTTP 200,
Content-Type text/html, and body exactly
`<h1>Index served from container</h1><p>Try GET /api</p>`. -/
theorem c2_get_root (req : Request) (hm : req.method = Method.GET)
    (hp : req.path = "/") :
    (dispatch req).status = 200 ∧
    (dispatch req).contentType = "text/html" ∧
    (dispatch req).body =
      "<h1>Index served from container</h1><p>Try GET /api</p>" := by
  have hd : dispatch req = root := by
    unfold dispatch
    rw [hp, hm]
    rfl
  rw [hd]
  exact ⟨rfl, rfl, rfl⟩

/-- C2 witness: the concrete GET / request. -/
theorem c2_get_root_witness :
    (dispatch reqRoot).status = 200 ∧
    (dispatch reqRoot).contentType = "text/html" ∧
    (dispatch reqRoot).body =
      "<h1>Index served from container</h1><p>Try GET /api</p>" :=
  c2_get_root reqRoot rfl rfl

end ServerPy

namespace ServerPy

/-- C3: every GET request to a path other than / and /api is answered by
the framework's default not-found response, HTTP 404; no handler of the
application runs. -/
theorem c3_unknown_path_404 (req : Request) (_hm : req.method = Method.GET)
    (h1 : req.path ≠ "/") (h2 : req.path ≠ "/api") :
    dispatch req = notFound ∧ (dispatch req).status = 404 := by
  have b1 : (("/api" : String) == req.path) = false :=
    beq_eq_false_iff_ne.mpr (Ne.symm h2)
  have b2 : (("/" : String) == req.path) = false :=
    beq_eq_false_iff_ne.mpr (Ne.symm h1)
  have hd : dispatch req = notFound := by
    unfold dispatch
    simp [routes, List.find?, b1, b2]
  exact ⟨hd, by rw [hd]; rfl⟩


/-- C3 witness: the concrete GET /unknown request. -/
theorem c3_unknown_path_404_witness :
    dispatch reqUnknown = notFound ∧ (dispatch reqUnknown).status = 404 :=
  c3_unknown_path_404 reqUnknown rfl (by decide) (by decide)

/-- C4: every request to / or /api whose method is outside the set the
framework supports on those routes is answered by the framework's default
method-not-allowed response, HTTP 405, not by application code. -/
theorem c4_unsupported_method_405 (req : Request)
    (hp : req.path = "/" ∨ req.path = "/api")
    (hm : req.method ∉ allowedMethods) :
    dispatch req = methodNotAllowed ∧ (dispatch req).status = 405 := by
  have hd : dispatch req = methodNotAllowed := by
    rcases hp with hp | hp <;>
      simp [dispatch, routes, hp, hm, List.find?]
  exact ⟨hd, by rw [hd]; rfl⟩

/-- C4 witness: the concrete POST /api request. -/
theorem c4_unsupported_method_405_witness :
    dispatch reqPostApi = methodNotAllowed ∧
    (dispatch reqPostApi).status = 405 :=
  c4_unsupported_method_405 reqPostApi (Or.inr rfl) (by decide)

/-- C5: both routes are idempotent: in the response sequence produced by
any number of repetitions of one identical request, every response equals
the response to the first request, byte for byte. -/
theorem c5_idempotent (req : Request) (n : Nat) (resp : Response)
    (h : resp ∈ serve (List.replicate n req)) :
    resp = dispatch req := by
  simp only [serve, List.mem_map] at h
  obtain ⟨a, ha, rfl⟩ := h
  rw [List.eq_of_mem_replicate ha]

/-- C5 witness: three repetitions of the concrete GET /api request all
produce the api payload. -/
theorem c5_idempotent_witness : api = dispatch reqApi :=
  c5_idempotent reqApi 3 api (by decide)

/-- C6: no route's response depends on anything but the request's method
and path: two requests that agree on method and path (and may differ in
query parameters, headers, and body) receive identical responses. -/
theorem c6_method_path_only (r1 r2 : Request)
    (hm : r1.method = r2.method) (hp : r1.path = r2.path) :
    dispatch r1 = dispatch r2 := by
  unfold dispatch
  rw [hm, hp]

/-- C6 witness: the plain and the noisy concrete GET /api requests, which
differ in query string, headers and body, get identical responses. -/
theorem c6_method_path_only_witness : dispatch reqApi = dispatch reqApiNoisy :=
  c6_method_path_only reqApi reqApiNoisy rfl rfl

/-- C7: starting the program binds host 0.0.0.0 and port 5000 whatever the
process environment and command line are; nothing alters this. -/
theorem c7_bind_config (env : List (String × String)) (argv : List String) :
    runConfigOf env argv = { host := "0.0.0.0", port := 5000 } :=
  rfl

/-- C8: HEAD and OPTIONS requests to / and /api are accepted (status 200,
never 405), and on those paths the 405 response arises exactly for methods
outside GET, HEAD and OPTIONS. -/
theorem c8_head_options_accepted (req : Request)
    (hp : req.path = "/" ∨ req.path = "/api") :
    ((req.method = Method.HEAD ∨ req.method = Method.OPTIONS) →
      (dispatch req).status = 200) ∧
    ((dispatch req).status = 405 ↔ req.method ∉ allowedMethods) := by
  obtain ⟨m, p, q, hs, b⟩ := req
  simp only at hp
  rcases hp with rfl | rfl <;> cases m <;>
    simp [dispatch, routes, allowedMethods, api, root, jsonify, htmlResponse,
      headOf, optionsResponse, methodNotAllowed, notFound, List.find?]

/-- C8 witness: the concrete HEAD / request is accepted with status 200
and is not a 405. -/
theorem c8_head_options_accepted_witness :
    ((reqHeadRoot.method = Method.HEAD ∨ reqHeadRoot.method = Method.OPTIONS) →
      (dispatch reqHeadRoot).status = 200) ∧
    ((dispatch reqHeadRoot).status = 405 ↔
      reqHeadRoot.method ∉ allowedMethods) :=
  c8_head_options_accepted reqHeadRoot (Or.inl rfl)

/-- C9: path matching is strict about trailing slashes: a GET request to
/api/ is not served by the /api handler; it gets the framework's default
404 response, not a 200 and not the JSON payload. -/
theorem c9_trailing_slash (req : Request) (_hm : req.method = Method.GET)
    (hp : req.path = "/api/") :
    dispatch req = notFound ∧ (dispatch req).status ≠ 200 ∧
    (dispatch req).body ≠ api.body := by
  have hd : dispatch req = notFound := by
    unfold dispatch
    rw [hp]
    rfl
  rw [hd]
  exact ⟨rfl, by decide, by decide⟩

/-- C9 witness: the concrete GET /api/ request. -/
theorem c9_trailing_slash_witness :
    dispatch reqApiSlash = notFound ∧ (dispatch reqApiSlash).status ≠ 200 ∧
    (dispatch reqApiSlash).body ≠ api.body :=
  c9_trailing_slash reqApiSlash rfl rfl

/-- C10: importing the module only defines the two routes; the
`app.run(host="0.0.0.0", port=5000)` call executes only when the file runs
as the main program. -/
theorem c10_main_guard :
    moduleEffects false =
      [Effect.defineRoute "/api", Effect.defineRoute "/"] ∧
    moduleEffects true =
      [Effect.defineRoute "/api", Effect.defineRoute "/",
       Effect.runServer { host := "0.0.0.0", port := 5000 }] :=
  ⟨rfl, rfl⟩

end ServerPy
